import Mathlib

/-!
Shallow embedding of the Synapse repository.

`src/main.py` is a FastAPI webhook: `POST /analyze-code` validates a JSON
payload against `CodeAnalysisRequest`, dumps it to a dict and hands it to
`process_code_analysis_request`, which fills a fixed prompt template, makes one
call to a hosted LLM, parses the reply against the `CodeAnalysisResponse`
schema and returns it, catching every exception into one generic error dict.
`src/Bot/sample_code.py` holds two small utility functions, `process_data` and
`calculate_average`.

The external LLM is modelled as an oracle parameter (messages in, raw reply or
exception out); Python dicts are association lists; the library parser and the
framework request validation, which are not part of this repository, are
modelled from the spec and marked as such in their doc comments.
-/

namespace Synapse

/-- Association-list lookup, modelling Python dict indexing `d[k]`;
`none` models a `KeyError`. -/
def getKey {α : Type} : List (String × α) → String → Option α
  | [], _ => none
  | (k, v) :: rest, key => if k = key then some v else getKey rest key

/-- `CodeAnalysisRequest` from `src/main.py`: the validated webhook payload,
two string fields. -/
structure CodeAnalysisRequest where
  user_query : String
  code_file_content : String
  deriving DecidableEq

/-- `CodeAnalysisResponse` from `src/main.py`: the structured reply schema,
two string fields. -/
structure CodeAnalysisResponse where
  suggestion : String
  edited_code : String
  deriving DecidableEq

/-- `request.model_dump()` on a `CodeAnalysisRequest`: the dict the handler
passes to the processing logic. -/
def CodeAnalysisRequest.model_dump (r : CodeAnalysisRequest) :
    List (String × String) :=
  [("user_query", r.user_query), ("code_file_content", r.code_file_content)]

/-- `response.model_dump()` on a `CodeAnalysisResponse`: a dict with exactly
the two schema fields. -/
def CodeAnalysisResponse.model_dump (r : CodeAnalysisResponse) :
    List (String × String) :=
  [("suggestion", r.suggestion), ("edited_code", r.edited_code)]

/-- A JSON value, as far as the embedding needs it: a string, or any
non-string JSON value (number, object, array, boolean, null). -/
inductive JVal where
  | jstr : String → JVal
  | jnonstr : JVal
  deriving DecidableEq

/-- A raw LLM reply: either text that is not a JSON object at all, or a JSON
object given by its fields. -/
inductive RawReply where
  | malformed : RawReply
  | obj : List (String × JVal) → RawReply
  deriving DecidableEq

/-- The `system_prompt` constant of `process_code_analysis_request` in
`src/main.py` (a triple-quoted Python string, newlines and indentation
included). -/
def system_prompt : String :=
  "\n    You are an expert code analysis and refactoring assistant.\n    Your task is to receive a user\x27s query about a piece of code, analyze it,\n    and provide a suggestion along with the edited code.\n    You MUST respond in the JSON format specified. Do not add any extra text or explanations outside of the JSON structure.\n    The value for the \"edited_code\" field MUST be a valid JSON string, with all newlines and special characters properly escaped (e.g., using \\n for newlines).\n    "

/-- Modelled from the spec: `PydanticOutputParser.get_format_instructions()`
is library code not in this repository; the spec fixes only that the format
instructions are a constant derived from the `CodeAnalysisResponse` schema,
independent of the request, so they are a fixed string here. -/
def format_instructions : String :=
  "The output should be formatted as a JSON instance that conforms to the JSON schema of CodeAnalysisResponse, with required string fields suggestion and edited_code."

/-- The `user_prompt_template` of `process_code_analysis_request` with its
three placeholders filled, as performed by `ChatPromptTemplate` on invoke. -/
def user_prompt_filled (user_query code_file_content fi : String) : String :=
  "\n    User Query: " ++ user_query ++
    "\n\n    --- START OF CODE FILE ---\n    " ++ code_file_content ++
    "\n    --- END OF CODE FILE ---\n\n    " ++ fi ++ "\n    "

/-- The two chat messages `(role, content)` built by
`ChatPromptTemplate.from_messages` after the template fill. -/
def promptMessages (uq cfc fi : String) : List (String × String) :=
  [("system", system_prompt), ("human", user_prompt_filled uq cfc fi)]

/-- The hosted LLM, the one external collaborator: given the chat messages it
either raises (`Except.error`, any transport or API failure) or returns a raw
reply. -/
def LLMOracle : Type := List (String × String) → Except String RawReply

/-- Modelled from the spec: `PydanticOutputParser` (library code) validates
the raw LLM reply against the fixed `CodeAnalysisResponse` schema — both
string fields must be present — returning the parsed object or raising. -/
def parseReply : RawReply → Except String CodeAnalysisResponse
  | .malformed => .error "OutputParserException"
  | .obj fields =>
    match getKey fields "suggestion", getKey fields "edited_code" with
    | some (.jstr s), some (.jstr e) => .ok ⟨s, e⟩
    | _, _ => .error "ValidationError"

/-- The body of the `try` block in `process_code_analysis_request`, paired
with the list of message batches actually sent to the LLM: the two dict
lookups (a missing key models the `KeyError` raised while building the invoke
arguments), then `chain.invoke` = template fill, one LLM call, parse. -/
def process_try_body (llm : LLMOracle) (request_data : List (String × String)) :
    Except String CodeAnalysisResponse × List (List (String × String)) :=
  match getKey request_data "user_query" with
  | none => (.error "KeyError: user_query", [])
  | some uq =>
    match getKey request_data "code_file_content" with
    | none => (.error "KeyError: code_file_content", [])
    | some cfc =>
      let msgs := promptMessages uq cfc format_instructions
      match llm msgs with
      | .error e => (.error e, [msgs])
      | .ok raw => (parseReply raw, [msgs])

/-- The generic error dict returned by the `except` branch of
`process_code_analysis_request`. -/
def genericError : List (String × String) :=
  [("error", "Failed to get a valid response from the AI model.")]

/-- `process_code_analysis_request` from `src/main.py`: run the `try` body;
on success return `response.model_dump()`, on any exception return the one
generic error dict. -/
def process_code_analysis_request (llm : LLMOracle)
    (request_data : List (String × String)) : List (String × String) :=
  match (process_try_body llm request_data).1 with
  | .ok resp => resp.model_dump
  | .error _ => genericError

/-- The message batches a run of `process_code_analysis_request` sends to the
LLM. -/
def sentMessages (llm : LLMOracle) (request_data : List (String × String)) :
    List (List (String × String)) :=
  (process_try_body llm request_data).2

/-- `handle_code_analysis` from `src/main.py`: dump the validated request to a
dict and call the processing logic. -/
def handle_code_analysis (llm : LLMOracle) (request : CodeAnalysisRequest) :
    List (String × String) :=
  process_code_analysis_request llm request.model_dump

/-- Modelled from the spec: FastAPI/pydantic validation of the webhook JSON
payload against `CodeAnalysisRequest` (framework code not in this repository):
both fields must be present with string values; extra fields are ignored; a
failing payload is rejected with a validation error. -/
def CodeAnalysisRequest.validate (payload : List (String × JVal)) :
    Except String CodeAnalysisRequest :=
  match getKey payload "user_query", getKey payload "code_file_content" with
  | some (.jstr uq), some (.jstr cfc) => .ok ⟨uq, cfc⟩
  | _, _ => .error "RequestValidationError"

/-- The `POST /analyze-code` endpoint: validate the payload, then run the
handler; `Except.error` models the HTTP 422 rejection issued before the
processing logic runs. -/
def analyze_code (llm : LLMOracle) (payload : List (String × JVal)) :
    Except String (List (String × String)) :=
  match CodeAnalysisRequest.validate payload with
  | .error e => .error e
  | .ok req => .ok (handle_code_analysis llm req)

/-- A returned dict conforms to the `CodeAnalysisResponse` schema when both
schema fields are present. -/
def conformsToResponse (d : List (String × String)) : Prop :=
  (getKey d "suggestion").isSome = true ∧ (getKey d "edited_code").isSome = true

instance (d : List (String × String)) : Decidable (conformsToResponse d) :=
  inferInstanceAs (Decidable (_ ∧ _))

/-- A user dict from `src/Bot/sample_code.py`, with the two fields
`process_data` reads. -/
structure User where
  age : Int
  name : String
  deriving DecidableEq

/-- `process_data` from `src/Bot/sample_code.py`: the loop appends the name of
every user whose age exceeds the threshold. -/
def process_data (user_list : List User) (threshold : Int) : List String :=
  user_list.foldl
    (fun results user =>
      if user.age > threshold then results ++ [user.name] else results) []

/-- `calculate_average` from `src/Bot/sample_code.py`, with Python numbers
taken as rationals: `0` on the empty list, else `sum / len`. -/
def calculate_average (numbers : List ℚ) : ℚ :=
  if numbers = [] then 0 else numbers.sum / (numbers.length : ℚ)

/-- An example LLM oracle whose reply parses against the schema. -/
def okOracle : LLMOracle :=
  fun _ => .ok (.obj
    [("suggestion", .jstr "Use a list comprehension."),
     ("edited_code", .jstr "results = [u for u in xs]")])

/-- An example LLM oracle whose call raises. -/
def failOracle : LLMOracle := fun _ => .error "APIConnectionError"

/-- An example request dict, shaped like the test payload. -/
def rdEx : List (String × String) :=
  [("user_query", "Add type hints."), ("code_file_content", "def f(x): return x")]

/-- A second example dict with the same two fields, different order and an
extra entry. -/
def rdEx2 : List (String × String) :=
  [("code_file_content", "def f(x): return x"), ("extra", "ignored"),
   ("user_query", "Add type hints.")]

/-- An example webhook JSON payload with both required string fields. -/
def payloadEx : List (String × JVal) :=
  [("user_query", .jstr "Add type hints."),
   ("code_file_content", .jstr "def f(x): return x")]

/-! ## Shared lemmas -/

/-- The loop of `process_data`, run from an arbitrary accumulator, appends the
names of the users above the threshold to that accumulator in input order. -/
lemma process_data_foldl (l : List User) (t : Int) (acc : List String) :
    l.foldl
        (fun results user =>
          if user.age > t then results ++ [user.name] else results) acc
      = acc ++ (l.filter (fun u => u.age > t)).map (fun u => u.name) := by
  induction l generalizing acc with
  | nil => simp
  | cons u l ih =>
    by_cases h : u.age > t
    · simp [List.filter_cons, h, ih]
    · simp [List.filter_cons, h, ih]

/-! ## Claim theorems -/

/-- C8: when the request dict is missing the key `user_query` or
`code_file_content`, the `KeyError` is raised inside the `try` block, so
`process_code_analysis_request` returns the generic error dict instead of
raising. -/
theorem C8_missing_key_caught (llm : LLMOracle) (rd : List (String × String))
    (h : getKey rd "user_query" = none ∨ getKey rd "code_file_content" = none) :
    process_code_analysis_request llm rd = genericError := by
  rcases h with h | h
  · simp [process_code_analysis_request, process_try_body, h]
  · cases huq : getKey rd "user_query" with
    | none => simp [process_code_analysis_request, process_try_body, huq]
    | some uq => simp [process_code_analysis_request, process_try_body, huq, h]

/-- Witness for C8 at a concrete dict that lacks `user_query`. -/
theorem C8_missing_key_caught_witness :
    process_code_analysis_request failOracle
        [("code_file_content", "def f(x): return x")]
      = genericError :=
  C8_missing_key_caught failOracle [("code_file_content", "def f(x): return x")]
    (Or.inl (by decide))

/-- C2: whenever the `try` body (LLM invocation, parse, or the dict lookups)
raises, `process_code_analysis_request` does not propagate the exception but
returns the fixed generic error dict. -/
theorem C2_single_catch (llm : LLMOracle) (rd : List (String × String))
    (e : String) (h : (process_try_body llm rd).1 = .error e) :
    process_code_analysis_request llm rd = genericError := by
  simp [process_code_analysis_request, h]

/-- Witness for C2 at a concrete payload and an oracle whose call raises. -/
theorem C2_single_catch_witness :
    process_code_analysis_request failOracle rdEx = genericError :=
  C2_single_catch failOracle rdEx "APIConnectionError" rfl

/-- C9: `calculate_average` is total: it returns `0` on the empty list and
`sum / length` otherwise, the denominator then being nonzero. -/
theorem C9_calculate_average_total (numbers : List ℚ)
    (h : numbers ≠ []) :
    calculate_average [] = 0 ∧
    calculate_average numbers = numbers.sum / (numbers.length : ℚ) ∧
    (numbers.length : ℚ) ≠ 0 := by
  refine ⟨by simp [calculate_average], by simp [calculate_average, h], ?_⟩
  have : 0 < numbers.length := List.length_pos.mpr h
  exact_mod_cast Nat.pos_iff_ne_zero.mp this

/-- Witness for C9 at the concrete list `[2, 4]`. -/
theorem C9_calculate_average_total_witness :
    calculate_average [] = 0 ∧
    calculate_average [(2 : ℚ), 4] = ((2 : ℚ) + (4 + 0)) / ((2 : Nat) : ℚ) ∧
    (((2 : Nat) : ℚ) ≠ 0) :=
  C9_calculate_average_total [(2 : ℚ), 4] (by decide)

/-- C3: when both request fields are present, `process_code_analysis_request`
is the three-step linear pipeline: it sends exactly one message batch, the
fixed template filled from the request fields, and its result is the parse of
that single call's reply (dumped on success, the generic error on failure). -/
theorem C3_linear_pipeline (llm : LLMOracle) (rd : List (String × String))
    (uq cfc : String)
    (h1 : getKey rd "user_query" = some uq)
    (h2 : getKey rd "code_file_content" = some cfc) :
    sentMessages llm rd = [promptMessages uq cfc format_instructions] ∧
    process_code_analysis_request llm rd =
      match (llm (promptMessages uq cfc format_instructions)).bind parseReply with
      | .ok resp => resp.model_dump
      | .error _ => genericError := by
  cases hr : llm (promptMessages uq cfc format_instructions) with
  | error e =>
    exact ⟨by simp [sentMessages, process_try_body, h1, h2, hr],
      by simp [process_code_analysis_request, process_try_body, h1, h2, hr,
        Except.bind]⟩
  | ok raw =>
    refine ⟨by simp [sentMessages, process_try_body, h1, h2, hr], ?_⟩
    simp only [process_code_analysis_request, process_try_body, h1, h2, hr,
      Except.bind]

/-- Witness for C3 at a concrete payload and an oracle that succeeds. -/
theorem C3_linear_pipeline_witness :
    sentMessages okOracle rdEx
        = [promptMessages "Add type hints." "def f(x): return x"
            format_instructions] ∧
    process_code_analysis_request okOracle rdEx =
      match (okOracle (promptMessages "Add type hints." "def f(x): return x"
          format_instructions)).bind parseReply with
      | .ok resp => resp.model_dump
      | .error _ => genericError :=
  C3_linear_pipeline okOracle rdEx "Add type hints." "def f(x): return x"
    rfl rfl

/-- C4: every reply received from the LLM goes through the schema parse: a
conforming reply makes the function return a dict with exactly the fields
`suggestion` and `edited_code`, and a reply missing either string field makes
the parser raise, landing in the generic-error branch. -/
theorem C4_schema_validation (llm : LLMOracle) (rd : List (String × String))
    (uq cfc : String) (raw : RawReply)
    (h1 : getKey rd "user_query" = some uq)
    (h2 : getKey rd "code_file_content" = some cfc)
    (h3 : llm (promptMessages uq cfc format_instructions) = .ok raw) :
    (∀ resp, parseReply raw = .ok resp →
        process_code_analysis_request llm rd
          = [("suggestion", resp.suggestion),
             ("edited_code", resp.edited_code)]) ∧
    (∀ e, parseReply raw = .error e →
        process_code_analysis_request llm rd = genericError) ∧
    ((¬ ∃ fields s e, raw = RawReply.obj fields ∧
        getKey fields "suggestion" = some (.jstr s) ∧
        getKey fields "edited_code" = some (.jstr e)) →
      ∃ err, parseReply raw = .error err) := by
  refine ⟨?_, ?_, ?_⟩
  · intro resp hp
    simp [process_code_analysis_request, process_try_body, h1, h2, h3, hp,
      CodeAnalysisResponse.model_dump]
  · intro e hp
    simp [process_code_analysis_request, process_try_body, h1, h2, h3, hp]
  · intro hn
    cases raw with
    | malformed => exact ⟨"OutputParserException", rfl⟩
    | obj fields =>
      cases hs : getKey fields "suggestion" with
      | none => exact ⟨"ValidationError", by simp [parseReply, hs]⟩
      | some v1 =>
        cases v1 with
        | jnonstr => exact ⟨"ValidationError", by simp [parseReply, hs]⟩
        | jstr s =>
          cases he : getKey fields "edited_code" with
          | none => exact ⟨"ValidationError", by simp [parseReply, hs, he]⟩
          | some v2 =>
            cases v2 with
            | jnonstr => exact ⟨"ValidationError", by simp [parseReply, hs, he]⟩
            | jstr e => exact absurd ⟨fields, s, e, rfl, hs, he⟩ hn

/-- Witness for C4: with a conforming concrete reply the returned dict is the
two schema fields. -/
theorem C4_schema_validation_witness :
    process_code_analysis_request okOracle rdEx
      = [("suggestion", "Use a list comprehension."),
         ("edited_code", "results = [u for u in xs]")] :=
  (C4_schema_validation okOracle rdEx "Add type hints."
      "def f(x): return x"
      (RawReply.obj
        [("suggestion", .jstr "Use a list comprehension."),
         ("edited_code", .jstr "results = [u for u in xs]")])
      rfl rfl rfl).1
    ⟨"Use a list comprehension.", "results = [u for u in xs]"⟩ rfl

/-- C5: the messages sent to the LLM are a fixed template filled only from the
two request fields: equal fields give identical messages, whatever the oracle,
and every batch sent starts with the constant system prompt and ends with the
constant format instructions. -/
theorem C5_fixed_prompt (llm llm2 : LLMOracle) (rd rd2 : List (String × String))
    (h1 : getKey rd "user_query" = getKey rd2 "user_query")
    (h2 : getKey rd "code_file_content" = getKey rd2 "code_file_content") :
    sentMessages llm rd = sentMessages llm2 rd2 ∧
    ∀ m ∈ sentMessages llm rd, ∃ uq cfc,
      getKey rd "user_query" = some uq ∧
      getKey rd "code_file_content" = some cfc ∧
      m = [("system", system_prompt),
           ("human", user_prompt_filled uq cfc format_instructions)] := by
  cases huq : getKey rd "user_query" with
  | none =>
    have huq2 : getKey rd2 "user_query" = none := h1.symm.trans huq
    exact ⟨by simp [sentMessages, process_try_body, huq, huq2],
      by intro m hm; simp [sentMessages, process_try_body, huq] at hm⟩
  | some uq =>
    have huq2 : getKey rd2 "user_query" = some uq := h1.symm.trans huq
    cases hcfc : getKey rd "code_file_content" with
    | none =>
      have hcfc2 : getKey rd2 "code_file_content" = none := h2.symm.trans hcfc
      exact ⟨by simp [sentMessages, process_try_body, huq, huq2, hcfc, hcfc2],
        by intro m hm; simp [sentMessages, process_try_body, huq, hcfc] at hm⟩
    | some cfc =>
      have hcfc2 : getKey rd2 "code_file_content" = some cfc := h2.symm.trans hcfc
      refine ⟨?_, ?_⟩
      · cases hl : llm (promptMessages uq cfc format_instructions) with
        | error e =>
          cases hl2 : llm2 (promptMessages uq cfc format_instructions) with
          | error e2 =>
            simp [sentMessages, process_try_body, huq, huq2, hcfc, hcfc2, hl, hl2]
          | ok raw2 =>
            simp [sentMessages, process_try_body, huq, huq2, hcfc, hcfc2, hl, hl2]
        | ok raw =>
          cases hl2 : llm2 (promptMessages uq cfc format_instructions) with
          | error e2 =>
            simp [sentMessages, process_try_body, huq, huq2, hcfc, hcfc2, hl, hl2]
          | ok raw2 =>
            simp [sentMessages, process_try_body, huq, huq2, hcfc, hcfc2, hl, hl2]
      · intro m hm
        refine ⟨uq, cfc, rfl, rfl, ?_⟩
        cases hl : llm (promptMessages uq cfc format_instructions) with
        | error e =>
          simp [sentMessages, process_try_body, huq, hcfc, hl] at hm
          rw [hm]; rfl
        | ok raw =>
          simp [sentMessages, process_try_body, huq, hcfc, hl] at hm
          rw [hm]; rfl

/-- Witness for C5: two dicts with equal fields but different layout send the
same messages to differently-behaving oracles. -/
theorem C5_fixed_prompt_witness :
    sentMessages okOracle rdEx = sentMessages failOracle rdEx2 :=
  (C5_fixed_prompt okOracle failOracle rdEx rdEx2 rfl rfl).1

/-- C6: the processing is stateless and deterministic: the response is a
function of the two request fields and the oracle's replies alone, so two
invocations with identical payload fields and identical LLM replies return
identical responses. -/
theorem C6_no_state (llm llm2 : LLMOracle) (rd rd2 : List (String × String))
    (hllm : ∀ m, llm m = llm2 m)
    (h1 : getKey rd "user_query" = getKey rd2 "user_query")
    (h2 : getKey rd "code_file_content" = getKey rd2 "code_file_content") :
    process_code_analysis_request llm rd
      = process_code_analysis_request llm2 rd2 := by
  cases huq : getKey rd "user_query" with
  | none =>
    have huq2 : getKey rd2 "user_query" = none := h1.symm.trans huq
    simp [process_code_analysis_request, process_try_body, huq, huq2]
  | some uq =>
    have huq2 : getKey rd2 "user_query" = some uq := h1.symm.trans huq
    cases hcfc : getKey rd "code_file_content" with
    | none =>
      have hcfc2 : getKey rd2 "code_file_content" = none := h2.symm.trans hcfc
      simp [process_code_analysis_request, process_try_body, huq, huq2, hcfc,
        hcfc2]
    | some cfc =>
      have hcfc2 : getKey rd2 "code_file_content" = some cfc := h2.symm.trans hcfc
      simp only [process_code_analysis_request, process_try_body, huq, huq2,
        hcfc, hcfc2, hllm (promptMessages uq cfc format_instructions)]

/-- Witness for C6: the same oracle and equal-field dicts give equal
responses. -/
theorem C6_no_state_witness :
    process_code_analysis_request okOracle rdEx
      = process_code_analysis_request okOracle rdEx2 :=
  C6_no_state okOracle okOracle rdEx rdEx2 (fun _ => rfl) rfl rfl

/-- C7: the endpoint accepts a payload carrying both string fields, handing
the validated request to the handler, and rejects a payload missing either
field with a validation error, before the processing logic (and hence the
oracle) is ever consulted. -/
theorem C7_endpoint_validation (llm : LLMOracle)
    (payload : List (String × JVal)) :
    (∀ uq cfc, getKey payload "user_query" = some (.jstr uq) →
        getKey payload "code_file_content" = some (.jstr cfc) →
        analyze_code llm payload
          = .ok (handle_code_analysis llm ⟨uq, cfc⟩)) ∧
    ((getKey payload "user_query" = none ∨
        getKey payload "code_file_content" = none) →
      ∀ llm2 : LLMOracle,
        analyze_code llm2 payload = .error "RequestValidationError") := by
  constructor
  · intro uq cfc hq hc
    simp [analyze_code, CodeAnalysisRequest.validate, hq, hc]
  · intro h llm2
    rcases h with h | h
    · simp [analyze_code, CodeAnalysisRequest.validate, h]
    · cases hq : getKey payload "user_query" with
      | none => simp [analyze_code, CodeAnalysisRequest.validate, hq]
      | some v =>
        cases v with
        | jstr uq => simp [analyze_code, CodeAnalysisRequest.validate, hq, h]
        | jnonstr => simp [analyze_code, CodeAnalysisRequest.validate, hq]

/-- Witness for C7: a concrete well-formed payload is accepted and routed to
the handler. -/
theorem C7_endpoint_validation_witness :
    analyze_code okOracle payloadEx
      = .ok (handle_code_analysis okOracle
          ⟨"Add type hints.", "def f(x): return x"⟩) :=
  (C7_endpoint_validation okOracle payloadEx).1
    "Add type hints." "def f(x): return x" rfl rfl

/-- C1 counterexample: at a concrete request, when the LLM call fails the
response of `handle_code_analysis` does not conform to
`CodeAnalysisResponse`. -/
theorem C1_counterexample :
    ¬ conformsToResponse
        (handle_code_analysis failOracle
          ⟨"Add type hints.", "def f(x): return x"⟩) := by
  decide

/-- C1 (amended): the response of `handle_code_analysis` is either the dump of
a successfully parsed LLM reply, which conforms to `CodeAnalysisResponse`, or
— when the LLM call or the parse fails — the generic error dict, which does
not conform. -/
theorem C1_handler_response (llm : LLMOracle) (request : CodeAnalysisRequest) :
    (∃ resp, (process_try_body llm request.model_dump).1 = .ok resp ∧
        handle_code_analysis llm request = resp.model_dump ∧
        conformsToResponse (handle_code_analysis llm request)) ∨
    (∃ e, (process_try_body llm request.model_dump).1 = .error e ∧
        handle_code_analysis llm request = genericError ∧
        ¬ conformsToResponse (handle_code_analysis llm request)) := by
  cases hres : (process_try_body llm request.model_dump).1 with
  | ok resp =>
    left
    refine ⟨resp, rfl, ?_, ?_⟩
    · simp [handle_code_analysis, process_code_analysis_request, hres]
    · simp [handle_code_analysis, process_code_analysis_request, hres,
        conformsToResponse, CodeAnalysisResponse.model_dump, getKey]
  | error e =>
    right
    refine ⟨e, rfl, ?_, ?_⟩
    · simp [handle_code_analysis, process_code_analysis_request, hres]
    · simp [handle_code_analysis, process_code_analysis_request, hres,
        conformsToResponse, genericError, getKey]

/-- Witness for C1 (amended) at a concrete request and succeeding oracle. -/
theorem C1_handler_response_witness :
    (∃ resp,
        (process_try_body okOracle
            (CodeAnalysisRequest.model_dump
              ⟨"Add type hints.", "def f(x): return x"⟩)).1 = .ok resp ∧
        handle_code_analysis okOracle
            ⟨"Add type hints.", "def f(x): return x"⟩ = resp.model_dump ∧
        conformsToResponse (handle_code_analysis okOracle
            ⟨"Add type hints.", "def f(x): return x"⟩)) ∨
    (∃ e,
        (process_try_body okOracle
            (CodeAnalysisRequest.model_dump
              ⟨"Add type hints.", "def f(x): return x"⟩)).1 = .error e ∧
        handle_code_analysis okOracle
            ⟨"Add type hints.", "def f(x): return x"⟩ = genericError ∧
        ¬ conformsToResponse (handle_code_analysis okOracle
            ⟨"Add type hints.", "def f(x): return x"⟩)) :=
  C1_handler_response okOracle ⟨"Add type hints.", "def f(x): return x"⟩

/-- C10: `process_data` returns the names of exactly the users whose age is
strictly above the threshold, in input order. -/
theorem C10_process_data_filter (user_list : List User) (threshold : Int) :
    process_data user_list threshold
      = (user_list.filter (fun u => u.age > threshold)).map (fun u => u.name) := by
  simpa [process_data] using process_data_foldl user_list threshold []

end Synapse
